import Mathlib

/-!
# Verification of the ica-tools orchestration core

Shallow embedding of the orchestration and monitoring engine of the
`ica-tools` repository (`src/ica_batch_processor.py`, `src/ica_cli_download.py`,
`src/ica_cli_workflow.py`, `src/ica_cli_upload.py`, `src/ica_cli_pipeline.py`,
`src/ica_monitor.py`), together with theorems settling the specification's
claims about it.

External effects (subprocess return codes, remote status responses, SMTP and
webhook delivery) are modelled as explicit environment values passed to the
embedded functions; printed messages, sleeps and notifications are modelled as
explicit event traces.
-/

namespace ICATools

/-! ## Parameter values (JSON-like values stored in a parameter dict) -/

/-- A value stored in a pipeline-parameter dictionary (string, boolean,
integer, or Python `None`, as produced by `_generate_params`). -/
inductive PValue
  | str (s : String)
  | boolean (b : Bool)
  | int (n : Nat)
  | null
  deriving DecidableEq, Repr

/-- Lookup in a Python-dict model: a dict is a list of key/value bindings in
insertion/update order, and the *last* binding of a key wins (matching
`dict.update` overwrite semantics). -/
def dictGet (d : List (String × PValue)) (k : String) : Option PValue :=
  d.foldl (fun acc e => if e.1 = k then some e.2 else acc) none

/-! ## Work items (`ica_batch_processor.py`)

A sample-sheet row: fields `sample_id, data_folder, pipeline, reference,
target_bed?, custom_params?` (absent `custom_params` is modelled as `[]`,
absent `target_bed` as `none`). -/

structure WorkItem where
  sample_id : String
  data_folder : String
  pipeline : String
  reference : String
  target_bed : Option String
  custom_params : List (String × PValue)
  deriving Repr

/-- The base parameters of `ICABatchProcessor._generate_params`
(lines 92–96 of `ica_batch_processor.py`). -/
def baseParams (s : WorkItem) : List (String × PValue) :=
  [("sample-id", .str s.sample_id),
   ("reference-tar",
     .str ("/reference-data/" ++ s.reference ++ "/" ++ s.reference ++ ".fa")),
   ("output-directory", .str "/output")]

/-- The pipeline-specific parameters added by `_generate_params`
(lines 98–118): `dragen-germline`, `dragen-rna` and `dragen-enrichment`
each add fixed entries; any other pipeline adds nothing. -/
def typeParams (s : WorkItem) : List (String × PValue) :=
  if s.pipeline = "dragen-germline" then
    [("enable-map-align", .boolean true),
     ("enable-sort", .boolean true),
     ("enable-duplicate-marking", .boolean true),
     ("enable-variant-caller", .boolean true)]
  else if s.pipeline = "dragen-rna" then
    [("enable-rna", .boolean true),
     ("enable-rna-quantification", .boolean true),
     ("annotation-file", .str ("/reference-data/" ++ s.reference ++ "/genes.gtf"))]
  else if s.pipeline = "dragen-enrichment" then
    [("enable-map-align", .boolean true),
     ("enable-variant-caller", .boolean true),
     ("vc-target-bed", match s.target_bed with | some p => .str p | none => .null),
     ("vc-target-bed-padding", .int 100)]
  else []

/-- `ICABatchProcessor._generate_params` (lines 90–124): base dict, then
`update` with the pipeline-specific entries, then `update` with
`custom_params`.  Updates are modelled by appending bindings; `dictGet`
gives the last binding of a key, which is exactly `dict.update` overwrite
semantics. -/
def generateParams (s : WorkItem) : List (String × PValue) :=
  baseParams s ++ typeParams s ++ s.custom_params

/-! ## Per-item processing (`ICABatchProcessor.process_sample`, lines 45–88)

The external effects of one item are the return codes (and stderr) of the two
subprocess invocations: the upload script and the workflow script. -/

/-- Outcome of the external commands run for one sample: return code and
stderr of the upload subprocess and of the pipeline (workflow) subprocess. -/
structure ItemEnv where
  uploadRc : Nat
  uploadStderr : String
  pipelineRc : Nat
  pipelineStderr : String
  deriving Repr

/-- `envOk e` iff both subprocesses of the item succeed. -/
def envOk (e : ItemEnv) : Bool :=
  e.uploadRc == 0 && e.pipelineRc == 0

/-- A recorded per-item result: `{sample_id, status, error?}` (the
`timestamp` field, `datetime.now()`, is not modelled). -/
structure WorkItemResult where
  sample_id : String
  status : String
  error : Option String
  deriving DecidableEq, Repr

/-- Trace of one `process_sample` call: which subprocesses were launched and
the returned result dict. -/
structure ItemTrace where
  uploadRan : Bool
  pipelineRan : Bool
  result : WorkItemResult
  deriving Repr

/-- `ICABatchProcessor.process_sample` (lines 45–88): run the upload
subprocess; on non-zero return code raise `RuntimeError("Upload failed: …")`,
which the enclosing `except` converts to a `failed` result, and the pipeline
subprocess is never launched.  Otherwise run the workflow subprocess; on
non-zero return code the raised `RuntimeError("Pipeline failed: …")` is
likewise converted to a `failed` result.  Otherwise return a `completed`
result. -/
def processSample (s : WorkItem) (env : ItemEnv) : ItemTrace :=
  if env.uploadRc ≠ 0 then
    ⟨true, false, ⟨s.sample_id, "failed", some ("Upload failed: " ++ env.uploadStderr)⟩⟩
  else if env.pipelineRc ≠ 0 then
    ⟨true, true, ⟨s.sample_id, "failed", some ("Pipeline failed: " ++ env.pipelineStderr)⟩⟩
  else
    ⟨true, true, ⟨s.sample_id, "completed", none⟩⟩

/-- The result dict recorded for one sample-sheet row. -/
def itemResult (p : WorkItem × ItemEnv) : WorkItemResult :=
  (processSample p.1 p.2).result

/-- The summary dict of `process_batch` (lines 150–155):
`{total_samples, completed, failed}` (the `timestamp` field is not
modelled). -/
structure BatchSummary where
  total_samples : Nat
  completed : Nat
  failed : Nat
  deriving DecidableEq, Repr

/-- `ICABatchProcessor.process_batch` (lines 126–167): every sample is
submitted to the pool and every future's result is collected (in submission
order) into `results`; the summary counts the samples and the
`completed`/`failed` results.  Both artifacts — the results list written to
`results.json` and the summary written to `summary.json` — are returned. -/
def processBatch (samples : List (WorkItem × ItemEnv)) :
    List WorkItemResult × BatchSummary :=
  let results := samples.map itemResult
  (results,
   ⟨samples.length,
    (results.filter (fun r => r.status = "completed")).length,
    (results.filter (fun r => r.status = "failed")).length⟩)

/-! ## The status poller (`ica_cli_download.py`)

`get_analysis_status` is a single remote query: it yields `(None, None)` on a
transport/CLI error, and otherwise `(status, folderId?)`, where the output
folder id is read from the response only when the status is `COMPLETED`.  One
query is modelled as one element of a response script:
`none` = query error, `some (status, fid?)` = successful query. -/

/-- One remote response observed by `get_analysis_status`: `none` for a
failed query (`(None, None)`), `some (status, fid?)` for a successful one. -/
abbrev StatusResp := Option (String × Option String)

/-- The terminal-failure statuses checked at line 104 of
`ica_cli_download.py`. -/
def isTerminalFailure (st : String) : Bool :=
  st == "FAILED" || st == "ABORTED" || st == "TERMINATED"

/-- Observable events of one `wait_for_analysis` run: remote queries, the
`time.sleep(polling_interval)` suspensions, and the two distinguishing
prints of the terminal branches. -/
inductive PollEvent
  | query
  | sleep (seconds : Nat)
  | completedMsg
  | endedMsg (status : String)
  deriving DecidableEq, Repr

/-- Return value and event trace of one `wait_for_analysis` run. -/
structure PollOutcome where
  retVal : Option String
  events : List PollEvent
  deriving DecidableEq, Repr

/-- `wait_for_analysis` (lines 81–108), run against a finite response
script; `none` means the script was exhausted with the loop still polling.
Each iteration queries once; a query error returns `None` at once; status
`COMPLETED` prints the success message and returns the folder id *as read
from the response* (possibly `None`); a terminal-failure status prints
`"Analysis ended with status: …"` and returns `None`; any other status
sleeps `interval` seconds and loops. -/
def waitForAnalysis (interval : Nat) : List StatusResp → Option PollOutcome
  | [] => none
  | resp :: rest =>
    match resp with
    | none => some ⟨none, [.query]⟩
    | some (st, fid) =>
      if st = "COMPLETED" then some ⟨fid, [.query, .completedMsg]⟩
      else if isTerminalFailure st then some ⟨none, [.query, .endedMsg st]⟩
      else
        match waitForAnalysis interval rest with
        | none => none
        | some o => some ⟨o.retVal, .query :: .sleep interval :: o.events⟩

/-- Outcome of the waiting path of `ica_cli_download.main` (lines 180–190):
either the poller produced no folder id and the program prints
`"Could not get output folder ID"` and exits 1 without downloading, or the
folder id is handed to `download_folder` and the exit code follows the
download's success. -/
inductive MainOutcome
  | exitNoFolder
  | downloaded (fid : String) (ok : Bool)
  deriving DecidableEq, Repr

/-- The waiting path of `ica_cli_download.main` (no `--no-wait`): run the
poller, then either fail without downloading (`if not folder_id`) or
download.  `dlOk` gives the success of `download_folder` per folder id.
Note Python truthiness: an empty-string folder id also takes the failure
branch. -/
def downloadMain (interval : Nat) (script : List StatusResp)
    (dlOk : String → Bool) : Option MainOutcome :=
  match waitForAnalysis interval script with
  | none => none
  | some o =>
    match o.retVal with
    | none => some .exitNoFolder
    | some fid =>
      if fid = "" then some .exitNoFolder
      else some (.downloaded fid (dlOk fid))

/-- Exit code of the waiting path of `ica_cli_download.main`. -/
def mainExitCode : MainOutcome → Nat
  | .exitNoFolder => 1
  | .downloaded _ ok => if ok then 0 else 1

/-! ## The stage-chaining workflow (`ica_cli_workflow.py`)

`main` (lines 182–208) chains `run_upload` → `run_pipeline` → `run_download`,
threading the uploaded folder name into the pipeline step and the extracted
analysis id into the download step, and stopping at the first failed step. -/

/-- Python `s.rstrip('/\\')`. -/
def pyRstripSlashes (s : String) : String :=
  s.dropRightWhile (fun c => c == '/' || c == '\\')

/-- Python `os.path.basename` (POSIX): the part after the last `'/'`. -/
def pyBasename (s : String) : String :=
  (s.splitOn "/").getLastD ""

/-- Python `a or b` for an optional string `a`: `b` when `a` is `None` or
empty. -/
def pyOrElse (a : Option String) (b : String) : String :=
  match a with
  | some s => if s = "" then b else s
  | none => b

/-- Python truthiness test `not x` for an optional string: true for `None`
and for the empty string. -/
def pyFalsy (a : Option String) : Bool :=
  match a with
  | some s => s == ""
  | none => true

/-- External effects seen by one `ica_cli_workflow.main` run: the return
codes of the upload and pipeline subprocesses, the pipeline subprocess's
stdout lines (scanned for the analysis id), and the success of the download
step. -/
structure WorkflowEnv where
  inputFolder : String
  folderNameArg : Option String
  uploadRc : Nat
  pipelineRc : Nat
  pipelineStdout : List String
  downloadOk : Bool
  deriving Repr

/-- `run_upload` (lines 22–54): on return code 0 yield the `--folder-name`
argument, or else the basename of the input folder with trailing slashes
stripped; on a non-zero return code yield `None`. -/
def runUpload (env : WorkflowEnv) : Option String :=
  if env.uploadRc = 0 then
    some (pyOrElse env.folderNameArg (pyBasename (pyRstripSlashes env.inputFolder)))
  else none

/-- The analysis-id scan of `run_pipeline` (lines 89–97): the first stdout
line containing `"Analysis ID:"` yields the text after the first occurrence,
stripped; if no line matches, `None`. -/
def extractAnalysisId : List String → Option String
  | [] => none
  | l :: rest =>
    let pieces := l.splitOn "Analysis ID:"
    if 2 ≤ pieces.length then
      some (String.intercalate "Analysis ID:" pieces.tail).trim
    else extractAnalysisId rest

/-- `run_pipeline` (lines 56–104): on return code 0, scan stdout for the
analysis id (yielding `None` with a warning when absent); on a non-zero
return code, `None`. -/
def runPipeline (env : WorkflowEnv) : Option String :=
  if env.pipelineRc = 0 then extractAnalysisId env.pipelineStdout
  else none

/-- Trace of one `ica_cli_workflow.main` run: which steps were invoked, the
value threaded into each later step, the stopping message, and the exit
code. -/
structure WorkflowTrace where
  uploadInvoked : Bool
  pipelineInvoked : Bool
  pipelineInput : Option String
  downloadInvoked : Bool
  downloadInput : Option String
  message : Option String
  exitCode : Nat
  deriving DecidableEq, Repr

/-- `ica_cli_workflow.main` (lines 182–208): step 1 uploads; on a falsy
folder name it prints `"Upload failed. Stopping workflow."` and exits 1,
never invoking steps 2 and 3.  Step 2 starts the pipeline on the uploaded
folder name; on a falsy analysis id it prints
`"Pipeline start failed. Stopping workflow."` and exits 1, never invoking
step 3.  Step 3 downloads with the extracted analysis id; the exit code is
0 iff the download succeeded. -/
def workflowMain (env : WorkflowEnv) : WorkflowTrace :=
  let folderName := runUpload env
  if pyFalsy folderName then
    ⟨true, false, none, false, none, some "Upload failed. Stopping workflow.", 1⟩
  else
    let fn := folderName.getD ""
    let analysisId := runPipeline env
    if pyFalsy analysisId then
      ⟨true, true, some fn, false, none,
        some "Pipeline start failed. Stopping workflow.", 1⟩
    else
      ⟨true, true, some fn, true, some (analysisId.getD ""), none,
        if env.downloadOk then 0 else 1⟩

/-! ## Notifications (`ica_monitor.py`)

Every notifying site in the monitor calls `self._send_email(subject, body)`
and then `self._send_slack(message)` (e.g. lines 100–101, 128–129, 145–146).
`_send_email` (lines 62–73) performs SMTP delivery with **no** exception
handler; `_send_slack` (lines 75–85) is a silent no-op when no webhook is
configured and wraps its post in `try/except`, logging a failure. -/

/-- External behaviour of the two notification channels for one `notify`
attempt: whether the SMTP delivery raises, whether a Slack webhook is
configured, and whether the webhook post raises. -/
structure NotifyEnv where
  smtpRaises : Bool
  slackWebhook : Option String
  slackPostRaises : Bool
  deriving Repr

/-- Observable events of one notification attempt. -/
inductive NotifyEvent
  | emailSent
  | slackPosted
  | slackErrorLogged
  deriving DecidableEq, Repr

/-- Events of one notification attempt together with whether an exception
escaped the notifying call site. -/
structure NotifyResult where
  events : List NotifyEvent
  raised : Bool
  deriving DecidableEq, Repr

/-- `ICAMonitor._send_slack` (lines 75–85): no webhook → return with no
event; webhook configured → post, catching a delivery failure and logging
it.  Never raises. -/
def sendSlack (env : NotifyEnv) : List NotifyEvent :=
  match env.slackWebhook with
  | none => []
  | some _ => if env.slackPostRaises then [.slackErrorLogged] else [.slackPosted]

/-- The notification sequence at every notifying call site of the monitor:
`_send_email(...)` then `_send_slack(...)`.  `_send_email` has no exception
handler, so an SMTP failure propagates out of the call site and
`_send_slack` is never reached. -/
def notifyChannels (env : NotifyEnv) : NotifyResult :=
  if env.smtpRaises then ⟨[], true⟩
  else ⟨.emailSent :: sendSlack env, false⟩

/-! ## Monitor loops (`ICAMonitor.monitor_storage` / `monitor_costs`)

Each loop iteration polls once, evaluates its condition, and either sleeps
`check_interval` seconds and loops (success path) or — on a query error —
notifies the error and hits `continue`, which re-polls immediately,
*skipping* the `time.sleep` at the loop's end.  The loop body has no
`return` or `break`, but it also has no exception handler around its own
statements: a notification whose SMTP delivery raises (see `notifyChannels`)
escapes the loop and terminates it, and in the storage monitor a reported
total of `0` makes `used_gb / total_gb` raise `ZeroDivisionError` and
likewise terminates the loop.  Queries are scripted per iteration:
`none` = non-zero return code, `some v` = a response whose table parses to
the given value(s) (for storage, a table with `Used:` and `Total:`
markers); each iteration also carries the channel behaviour in effect
should it notify. -/

/-- One iteration's external input to `monitor_storage`: the query outcome
and the notification-channel behaviour for this iteration. -/
structure StorageIterEnv where
  query : Option (ℚ × ℚ)
  notifyEnv : NotifyEnv
  deriving Repr

/-- One iteration's external input to `monitor_costs`. -/
structure CostIterEnv where
  query : Option ℚ
  notifyEnv : NotifyEnv
  deriving Repr

/-- Observable events of the monitor loops; each notification event carries
the outcome of the `_send_email`/`_send_slack` sequence it ran. -/
inductive MonEvent
  | poll
  | notifyErr (n : NotifyResult)
  | notifyWarn (n : NotifyResult)
  | sleep (seconds : Nat)
  deriving DecidableEq, Repr

/-- Events of a monitor-loop run together with whether an exception escaped
the loop body, terminating the loop. -/
structure MonRun where
  events : List MonEvent
  crashed : Bool
  deriving DecidableEq, Repr

/-- One iteration of `ICAMonitor.monitor_storage` (lines 121–148).
Query error: notify the error (an SMTP raise escapes and terminates the
loop), otherwise `continue` — with **no** sleep.  Successful query: compute
`used/total*100` — `ZeroDivisionError` when `total = 0` terminates the
loop; at or above the threshold notify a warning (an SMTP raise again
escapes); then sleep `interval` and loop. -/
def storageStep (threshold : ℚ) (interval : Nat) (it : StorageIterEnv) :
    MonRun :=
  match it.query with
  | none =>
    let n := notifyChannels it.notifyEnv
    ⟨[.poll, .notifyErr n], n.raised⟩
  | some (used, total) =>
    if total = 0 then ⟨[.poll], true⟩
    else if threshold ≤ used / total * 100 then
      let n := notifyChannels it.notifyEnv
      ⟨if n.raised then [.poll, .notifyWarn n]
        else [.poll, .notifyWarn n, .sleep interval], n.raised⟩
    else ⟨[.poll, .sleep interval], false⟩

/-- `monitor_storage` run against a finite iteration script: iterations run
in order until one's body raises (`crashed`), in which case the rest of the
script is never polled; with no crash every scripted iteration is consumed
and the loop is still running afterwards (no `return`/`break`). -/
def storageLoop (threshold : ℚ) (interval : Nat) :
    List StorageIterEnv → MonRun
  | [] => ⟨[], false⟩
  | it :: rest =>
    let s := storageStep threshold interval it
    if s.crashed then s
    else
      let t := storageLoop threshold interval rest
      ⟨s.events ++ t.events, t.crashed⟩

/-- One iteration of `ICAMonitor.monitor_costs` (lines 155–176): same shape
as the storage iteration with condition `current_cost >= budget_threshold`
and no division. -/
def costStep (budget : ℚ) (interval : Nat) (it : CostIterEnv) : MonRun :=
  match it.query with
  | none =>
    let n := notifyChannels it.notifyEnv
    ⟨[.poll, .notifyErr n], n.raised⟩
  | some cost =>
    if budget ≤ cost then
      let n := notifyChannels it.notifyEnv
      ⟨if n.raised then [.poll, .notifyWarn n]
        else [.poll, .notifyWarn n, .sleep interval], n.raised⟩
    else ⟨[.poll, .sleep interval], false⟩

/-- `monitor_costs` run against a finite iteration script. -/
def costLoop (budget : ℚ) (interval : Nat) : List CostIterEnv → MonRun
  | [] => ⟨[], false⟩
  | it :: rest =>
    let s := costStep budget interval it
    if s.crashed then s
    else
      let t := costLoop budget interval rest
      ⟨s.events ++ t.events, t.crashed⟩

/-- A storage iteration whose body completes: any division is by a nonzero
total, and any notification the iteration performs (query error, or
threshold reached) delivers its mail without raising. -/
def storageIterOk (threshold : ℚ) (it : StorageIterEnv) : Bool :=
  match it.query with
  | none => !it.notifyEnv.smtpRaises
  | some (used, total) =>
    !(decide (total = 0))
      && (!(decide (threshold ≤ used / total * 100)) || !it.notifyEnv.smtpRaises)

/-- A cost iteration whose body completes. -/
def costIterOk (budget : ℚ) (it : CostIterEnv) : Bool :=
  match it.query with
  | none => !it.notifyEnv.smtpRaises
  | some cost => !(decide (budget ≤ cost)) || !it.notifyEnv.smtpRaises

/-! ## Name resolution (`ica_cli_upload.get_project_id`,
`ica_cli_pipeline.get_pipeline_id`)

Both scan a listed sequence of `{name, id}` records and return the id of the
first record whose name equals the requested name after lowercasing both;
when no record matches they report not-found (`None`). -/

/-- Python `s.lower()`, modelled as the character-wise lowercase map over
the string's characters. -/
def pyLower (s : String) : String :=
  String.mk (s.data.map Char.toLower)

/-- The shared scan: first entry with `entry.name.lower() == name.lower()`
wins; `none` when no entry matches. -/
def findIdByNameCI (entries : List (String × String)) (name : String) :
    Option String :=
  match entries with
  | [] => none
  | e :: rest =>
    if pyLower e.1 = pyLower name then some e.2 else findIdByNameCI rest name

/-- `get_project_id` (`ica_cli_upload.py` lines 23–46, identically in
`ica_cli_pipeline.py` and `ica_cli_download.py`) applied to the listed
projects. -/
def getProjectId (projects : List (String × String)) (projectName : String) :
    Option String :=
  findIdByNameCI projects projectName

/-- `get_pipeline_id` (`ica_cli_pipeline.py` lines 44–67) applied to the
pipelines listed for the project. -/
def getPipelineId (pipelines : List (String × String)) (pipelineName : String) :
    Option String :=
  findIdByNameCI pipelines pipelineName

/-- A response that keeps the polling loop going: a successful query whose
status is neither `COMPLETED` nor a terminal failure. -/
def nonTerminalResp (r : StatusResp) : Bool :=
  match r with
  | some (st, _) => st ≠ "COMPLETED" && !(isTerminalFailure st)
  | none => false

/-- Recogniser for the poll event of the monitor loops. -/
def isPoll : MonEvent → Bool
  | .poll => true
  | _ => false

/-! ## Concrete sample data (used by the witness theorems) -/

/-- An item environment in which both subprocesses succeed. -/
def envAllOk : ItemEnv := ⟨0, "", 0, ""⟩

/-- An item environment in which the upload subprocess fails. -/
def envUploadFails : ItemEnv := ⟨1, "disk full", 0, ""⟩

/-- An item environment in which the workflow subprocess fails. -/
def envPipelineFails : ItemEnv := ⟨0, "", 1, "submit error"⟩

/-- A germline sample-sheet row. -/
def sampleA : WorkItem := ⟨"S1", "/data/S1", "dragen-germline", "hg38", none, []⟩

/-- An RNA sample-sheet row. -/
def sampleB : WorkItem := ⟨"S2", "/data/S2", "dragen-rna", "hg38", none, []⟩

/-- An enrichment sample-sheet row with a custom-parameter override. -/
def sampleC : WorkItem :=
  ⟨"S3", "/data/S3", "dragen-enrichment", "hg38", some "t.bed",
   [("output-directory", .str "/scratch")]⟩

/-- A workflow environment in which the upload succeeds and the pipeline
start fails. -/
def wfEnvSubmitFails : WorkflowEnv := ⟨"/data/runX", some "runX", 0, 1, [], false⟩

/-- A notification environment: SMTP delivery succeeds, no Slack webhook. -/
def notifyEnvMailOnly : NotifyEnv := ⟨false, none, false⟩

/-- A notification environment: SMTP delivery raises while a Slack webhook
is configured. -/
def notifyEnvMailRaises : NotifyEnv := ⟨true, some "https://hooks.example/x", false⟩

/-! ## Dict-lookup lemmas -/

theorem dictGet_foldl_acc (k : String) (l : List (String × PValue))
    (acc : Option PValue) :
    l.foldl (fun a e => if e.1 = k then some e.2 else a) acc
      = (l.foldl (fun a e => if e.1 = k then some e.2 else a) none).elim acc some := by
  induction l generalizing acc with
  | nil => simp
  | cons e rest ih =>
    simp only [List.foldl_cons]
    rw [ih, ih (if e.1 = k then some e.2 else none)]
    by_cases he : e.1 = k <;>
      cases hres : rest.foldl (fun a x => if x.1 = k then some x.2 else a) none <;>
      simp [he, hres]

theorem dictGet_append (a b : List (String × PValue)) (k : String) :
    dictGet (a ++ b) k = (dictGet b k).elim (dictGet a k) some := by
  unfold dictGet
  rw [List.foldl_append, dictGet_foldl_acc]

/-! ## Per-item status lemmas -/

theorem itemResult_status_cases (p : WorkItem × ItemEnv) :
    (itemResult p).status = "completed" ∨ (itemResult p).status = "failed" := by
  unfold itemResult processSample
  split
  · exact Or.inr rfl
  · split
    · exact Or.inr rfl
    · exact Or.inl rfl

theorem itemResult_completed (p : WorkItem × ItemEnv) (h : envOk p.2 = true) :
    (itemResult p).status = "completed" := by
  unfold envOk at h
  simp only [Bool.and_eq_true, beq_iff_eq] at h
  unfold itemResult processSample
  simp [h.1, h.2]

theorem itemResult_failed (p : WorkItem × ItemEnv) (h : envOk p.2 = false) :
    (itemResult p).status = "failed" := by
  unfold envOk at h
  unfold itemResult processSample
  rcases Nat.eq_zero_or_pos p.2.uploadRc with h1 | h1
  · rcases Nat.eq_zero_or_pos p.2.pipelineRc with h2 | h2
    · simp [h1, h2] at h
    · simp [h1, Nat.pos_iff_ne_zero.mp h2]
  · simp [Nat.pos_iff_ne_zero.mp h1]

/-- In a result list in which every element is `completed` or `failed`, the
two filtered counts partition the list. -/
theorem filter_completed_add_filter_failed (rs : List WorkItemResult)
    (h : ∀ r ∈ rs, r.status = "completed" ∨ r.status = "failed") :
    (rs.filter (fun r => r.status = "completed")).length
      + (rs.filter (fun r => r.status = "failed")).length = rs.length := by
  induction rs with
  | nil => simp
  | cons r rest ih =>
    have hr := h r (List.mem_cons_self r rest)
    have hrest := ih (fun x hx => h x (List.mem_cons_of_mem r hx))
    rcases hr with h1 | h1 <;> simp [List.filter_cons, h1] <;> omega

/-- **C1**: every batch run completes and yields both the results list and a
summary, for every environment of item outcomes (in particular when every
item failed); the summary satisfies
`completed + failed = total_samples` and the results list has length
`total_samples`. -/
theorem batch_summary_invariant (samples : List (WorkItem × ItemEnv)) :
    (processBatch samples).2.completed + (processBatch samples).2.failed
        = (processBatch samples).2.total_samples
    ∧ (processBatch samples).1.length = (processBatch samples).2.total_samples := by
  constructor
  · show ((samples.map itemResult).filter _).length
        + ((samples.map itemResult).filter _).length = samples.length
    rw [filter_completed_add_filter_failed]
    · exact samples.length_map itemResult
    · intro r hr
      rcases List.mem_map.mp hr with ⟨p, _, hp⟩
      exact hp ▸ itemResult_status_cases p
  · exact samples.length_map itemResult

/-- A list of all-succeeding items filters to itself under `completed` and
to `[]` under `failed`. -/
theorem map_itemResult_all_ok (l : List (WorkItem × ItemEnv))
    (h : ∀ p ∈ l, envOk p.2 = true) :
    (l.map itemResult).filter (fun r => r.status = "completed") = l.map itemResult
    ∧ (l.map itemResult).filter (fun r => r.status = "failed") = [] := by
  constructor
  · rw [List.filter_eq_self]
    intro r hr
    rcases List.mem_map.mp hr with ⟨p, hp, hpr⟩
    simp [← hpr, itemResult_completed p (h p hp)]
  · rw [List.filter_eq_nil_iff]
    intro r hr
    rcases List.mem_map.mp hr with ⟨p, hp, hpr⟩
    simp [← hpr, itemResult_completed p (h p hp)]

/-- **C2**: in a batch in which exactly one item's environment fails and
every sibling succeeds, the failing item is recorded as the single `failed`
result, every sibling's recorded result is exactly its own isolated
`process_sample` result, there are `N − 1` `completed` results, and the
batch still produces its full result list (no abort). -/
theorem batch_failure_isolation
    (pre post : List (WorkItem × ItemEnv)) (bad : WorkItem × ItemEnv)
    (hbad : envOk bad.2 = false)
    (hpre : ∀ p ∈ pre, envOk p.2 = true)
    (hpost : ∀ p ∈ post, envOk p.2 = true) :
    (processBatch (pre ++ bad :: post)).1
        = pre.map itemResult ++ itemResult bad :: post.map itemResult
    ∧ (itemResult bad).status = "failed"
    ∧ ((processBatch (pre ++ bad :: post)).1.filter
          (fun r => r.status = "completed")).length = pre.length + post.length
    ∧ ((processBatch (pre ++ bad :: post)).1.filter
          (fun r => r.status = "failed")).length = 1 := by
  have hres : (processBatch (pre ++ bad :: post)).1
      = pre.map itemResult ++ itemResult bad :: post.map itemResult := by
    show (pre ++ bad :: post).map itemResult = _
    simp
  have hfail := itemResult_failed bad hbad
  refine ⟨hres, hfail, ?_, ?_⟩
  · rw [hres, List.filter_append, List.filter_cons]
    simp only [hfail]
    rw [(map_itemResult_all_ok pre hpre).1, (map_itemResult_all_ok post hpost).1]
    simp
  · rw [hres, List.filter_append, List.filter_cons]
    simp only [hfail]
    rw [(map_itemResult_all_ok pre hpre).2, (map_itemResult_all_ok post hpost).2]
    simp

/-- Witness for C2: a three-item batch whose middle item's upload fails
yields exactly one `failed` result and two `completed` results. -/
theorem batch_failure_isolation_witness :
    envOk envUploadFails = false
    ∧ ((processBatch
          [(sampleA, envAllOk), (sampleB, envUploadFails), (sampleC, envAllOk)]).1.filter
          (fun r => r.status = "completed")).length = 2
    ∧ ((processBatch
          [(sampleA, envAllOk), (sampleB, envUploadFails), (sampleC, envAllOk)]).1.filter
          (fun r => r.status = "failed")).length = 1 :=
  ⟨by decide,
   (batch_failure_isolation [(sampleA, envAllOk)] [(sampleC, envAllOk)]
      (sampleB, envUploadFails) (by decide) (by decide) (by decide)).2.2.1,
   (batch_failure_isolation [(sampleA, envAllOk)] [(sampleC, envAllOk)]
      (sampleB, envUploadFails) (by decide) (by decide) (by decide)).2.2.2⟩

/-! ## Status-poller theorems (`wait_for_analysis`) -/

/-- **C3**: on the script `[RUNNING, RUNNING, COMPLETED("f1")]` the poller
queries three times with exactly two sleeps of `interval` seconds in
between and returns success `"f1"`; on `[RUNNING, FAILED]` it sleeps once
and returns failure, the ended-message carrying reason `FAILED`; and for
every terminal status in `{FAILED, ABORTED, TERMINATED}` a single query
returns failure carrying that status, with no further query regardless of
any remaining responses (no retry). -/
theorem poller_terminal_behaviour (interval : Nat) :
    (∀ rest : List StatusResp,
        waitForAnalysis interval
            ([some ("RUNNING", none), some ("RUNNING", none),
              some ("COMPLETED", some "f1")] ++ rest)
          = some ⟨some "f1",
              [.query, .sleep interval, .query, .sleep interval, .query,
               .completedMsg]⟩)
    ∧ (∀ rest : List StatusResp,
        waitForAnalysis interval
            ([some ("RUNNING", none), some ("FAILED", none)] ++ rest)
          = some ⟨none, [.query, .sleep interval, .query, .endedMsg "FAILED"]⟩)
    ∧ (∀ st : String, isTerminalFailure st = true →
        ∀ (fid : Option String) (rest : List StatusResp),
          waitForAnalysis interval (some (st, fid) :: rest)
            = some ⟨none, [.query, .endedMsg st]⟩) := by
  refine ⟨?_, ?_, ?_⟩
  · intro rest
    simp [waitForAnalysis, isTerminalFailure]
  · intro rest
    simp [waitForAnalysis, isTerminalFailure]
  · intro st hst fid rest
    have hne : ¬ st = "COMPLETED" := by
      intro h
      rw [h] at hst
      simp [isTerminalFailure] at hst
    simp [waitForAnalysis, hne, hst]

/-- Witness for C3: the terminal-status clause at `ABORTED` with a pending
response left unread. -/
theorem poller_terminal_behaviour_witness :
    waitForAnalysis 60 [some ("ABORTED", none), some ("RUNNING", none)]
      = some ⟨none, [.query, .endedMsg "ABORTED"]⟩ :=
  (poller_terminal_behaviour 60).2.2 "ABORTED" (by decide) none
    [some ("RUNNING", none)]

/-- After any prefix of non-terminal responses, a `COMPLETED` response with
no output folder id ends the poll with return value `None`. -/
theorem waitForAnalysis_completed_none (interval : Nat)
    (pre rest : List StatusResp)
    (hpre : ∀ r ∈ pre, nonTerminalResp r = true) :
    ∃ evs, waitForAnalysis interval (pre ++ some ("COMPLETED", none) :: rest)
        = some ⟨none, evs⟩ := by
  induction pre with
  | nil =>
    exact ⟨[.query, .completedMsg], by simp [waitForAnalysis]⟩
  | cons r pre ih =>
    have hr := hpre r (List.mem_cons_self r pre)
    rcases ih (fun x hx => hpre x (List.mem_cons_of_mem r hx)) with ⟨evs, hevs⟩
    match r with
    | none => simp [nonTerminalResp] at hr
    | some (st, fid) =>
      simp only [nonTerminalResp, Bool.and_eq_true, Bool.not_eq_true',
        decide_eq_true_eq] at hr
      refine ⟨.query :: .sleep interval :: evs, ?_⟩
      simp [waitForAnalysis, hr.1, hr.2, hevs]

/-- **C4**: whenever the poller observes `COMPLETED` with no output folder
id in the remote response (after any run of non-terminal statuses), the
waiting path of `main` takes the `"Could not get output folder ID"` error
exit (code 1) — the download step is never invoked, so no success with an
empty identifier is possible. -/
theorem completed_without_output_is_error (interval : Nat)
    (pre rest : List StatusResp) (dlOk : String → Bool)
    (hpre : ∀ r ∈ pre, nonTerminalResp r = true) :
    downloadMain interval (pre ++ some ("COMPLETED", none) :: rest) dlOk
        = some MainOutcome.exitNoFolder
    ∧ mainExitCode MainOutcome.exitNoFolder = 1
    ∧ ∀ (fid : String) (ok : Bool), MainOutcome.exitNoFolder ≠ .downloaded fid ok := by
  rcases waitForAnalysis_completed_none interval pre rest hpre with ⟨evs, hevs⟩
  refine ⟨?_, rfl, fun fid ok h => by cases h⟩
  unfold downloadMain
  rw [hevs]

/-- Witness for C4: one `RUNNING` response followed by `COMPLETED` without
an output id takes the error exit. -/
theorem completed_without_output_is_error_witness :
    downloadMain 60 [some ("RUNNING", none), some ("COMPLETED", none)]
        (fun _ => true)
      = some MainOutcome.exitNoFolder :=
  (completed_without_output_is_error 60 [some ("RUNNING", none)] []
      (fun _ => true) (by decide)).1

/-! ## Notification-dispatcher theorems -/

/-- **C5 counterexample**: with a Slack webhook configured and an SMTP
delivery failure, the chat channel is never attempted (no post, no logged
chat error) and the failure escapes the notifying call site — refuting the
claim that a mail-channel failure is caught and leaves the remaining
channels attempted. -/
theorem mail_failure_not_isolated :
    (notifyChannels notifyEnvMailRaises).raised = true
    ∧ NotifyEvent.slackPosted ∉ (notifyChannels notifyEnvMailRaises).events
    ∧ NotifyEvent.slackErrorLogged ∉ (notifyChannels notifyEnvMailRaises).events := by
  decide

/-- **C5 (amended)**: the dispatcher attempts the mail channel and then the
chat channel; a chat-channel delivery failure is caught and logged and does
not disturb the already-delivered mail notification, and an absent chat
webhook is a silent no-op; but a mail-channel failure is *not* caught — it
propagates out of the call site and the chat channel is never attempted. -/
theorem notify_channel_behaviour (env : NotifyEnv) :
    (env.smtpRaises = true → notifyChannels env = ⟨[], true⟩)
    ∧ (env.smtpRaises = false →
        notifyChannels env = ⟨.emailSent :: sendSlack env, false⟩)
    ∧ (env.slackWebhook = none → sendSlack env = [])
    ∧ (∀ w, env.slackWebhook = some w → env.slackPostRaises = true →
        sendSlack env = [.slackErrorLogged])
    ∧ (∀ w, env.slackWebhook = some w → env.slackPostRaises = false →
        sendSlack env = [.slackPosted]) := by
  refine ⟨fun h => by simp [notifyChannels, h], fun h => by simp [notifyChannels, h],
    fun h => by simp [sendSlack, h], fun w hw hr => by simp [sendSlack, hw, hr],
    fun w hw hr => by simp [sendSlack, hw, hr]⟩

/-- Witness for amended C5: with SMTP succeeding and no webhook configured,
the dispatcher delivers the mail notification, performs no chat action, and
raises nothing. -/
theorem notify_channel_behaviour_witness :
    notifyChannels notifyEnvMailOnly = ⟨[NotifyEvent.emailSent], false⟩ := by
  have h := (notify_channel_behaviour notifyEnvMailOnly).2.1 (by decide)
  have h2 := (notify_channel_behaviour notifyEnvMailOnly).2.2.1 (by decide)
  rw [h, h2]

/-! ## Parameter-generator theorems -/

/-- The pipeline-specific entries never bind the base keys. -/
theorem dictGet_typeParams_base_none (s : WorkItem)
    (k : String) (hk : k = "sample-id" ∨ k = "reference-tar" ∨ k = "output-directory") :
    dictGet (typeParams s) k = none := by
  unfold typeParams
  rcases hk with h | h | h <;> subst h <;> split_ifs <;> simp [dictGet]

/-- **C6**: the parameter generator is total (it is a function defined for
every `WorkItem`) and, absent custom overrides, always binds the base keys
(sample identity, reference path derived from the reference name, output
location); `dragen-germline` adds the four germline boolean flags set true,
`dragen-rna` adds an annotation-file path derived from the reference name,
an unknown pipeline adds nothing beyond the base dict, and any
custom-parameter binding is merged last so it overrides a generated key. -/
theorem param_generator_spec :
    (∀ s : WorkItem, s.custom_params = [] →
        dictGet (generateParams s) "sample-id" = some (.str s.sample_id)
        ∧ dictGet (generateParams s) "reference-tar"
            = some (.str ("/reference-data/" ++ s.reference ++ "/"
                ++ s.reference ++ ".fa"))
        ∧ dictGet (generateParams s) "output-directory" = some (.str "/output"))
    ∧ (∀ s : WorkItem, s.custom_params = [] → s.pipeline = "dragen-germline" →
        dictGet (generateParams s) "enable-map-align" = some (.boolean true)
        ∧ dictGet (generateParams s) "enable-sort" = some (.boolean true)
        ∧ dictGet (generateParams s) "enable-duplicate-marking" = some (.boolean true)
        ∧ dictGet (generateParams s) "enable-variant-caller" = some (.boolean true))
    ∧ (∀ s : WorkItem, s.custom_params = [] → s.pipeline = "dragen-rna" →
        dictGet (generateParams s) "annotation-file"
          = some (.str ("/reference-data/" ++ s.reference ++ "/genes.gtf")))
    ∧ (∀ s : WorkItem, s.custom_params = [] →
        s.pipeline ≠ "dragen-germline" → s.pipeline ≠ "dragen-rna" →
        s.pipeline ≠ "dragen-enrichment" →
        generateParams s = baseParams s)
    ∧ (∀ (s : WorkItem) (k : String) (v : PValue),
        dictGet s.custom_params k = some v →
        dictGet (generateParams s) k = some v) := by
  refine ⟨?_, ?_, ?_, ?_, ?_⟩
  · intro s hc
    refine ⟨?_, ?_, ?_⟩ <;>
      rw [generateParams, hc, List.append_nil, dictGet_append,
        dictGet_typeParams_base_none s _ (by simp)] <;>
      simp [dictGet, baseParams]
  · intro s hc hp
    refine ⟨?_, ?_, ?_, ?_⟩ <;>
      rw [generateParams, hc, List.append_nil, dictGet_append] <;>
      simp [typeParams, hp, dictGet]
  · intro s hc hp
    rw [generateParams, hc, List.append_nil, dictGet_append]
    simp [typeParams, hp, dictGet]
  · intro s hc h1 h2 h3
    rw [generateParams, hc, List.append_nil, typeParams]
    simp [h1, h2, h3]
  · intro s k v hv
    rw [generateParams, dictGet_append, dictGet_append, hv]
    rfl

/-- Witness for C6: evaluating the generator on concrete germline, RNA and
override-carrying items. -/
theorem param_generator_spec_witness :
    dictGet (generateParams sampleA) "enable-sort" = some (.boolean true)
    ∧ dictGet (generateParams sampleB) "annotation-file"
        = some (.str "/reference-data/hg38/genes.gtf")
    ∧ dictGet (generateParams sampleC) "output-directory" = some (.str "/scratch") :=
  ⟨(param_generator_spec.2.1 sampleA rfl rfl).2.1,
   param_generator_spec.2.2.1 sampleB rfl rfl,
   param_generator_spec.2.2.2.2 sampleC "output-directory" (.str "/scratch")
     (by decide)⟩

/-! ## Stage-pipeline (workflow) theorems -/

/-- **C7**: workflow steps run strictly in their listed order and execution
is fail-fast — an upload failure stops before the pipeline and download
steps with the upload diagnostic; for stages [upload succeeds producing a
value, submit fails] the download step is never invoked and the run fails
with the pipeline-start diagnostic; the download step can only ever run
after both earlier steps; and in the batch item runner an upload failure
likewise prevents the workflow subprocess and records the failing stage's
diagnostic. -/
theorem stage_pipeline_fail_fast :
    (∀ env : WorkflowEnv, env.uploadRc ≠ 0 →
        workflowMain env
          = ⟨true, false, none, false, none,
              some "Upload failed. Stopping workflow.", 1⟩)
    ∧ (∀ env : WorkflowEnv, pyFalsy (runUpload env) = false → env.pipelineRc ≠ 0 →
        workflowMain env
          = ⟨true, true, some ((runUpload env).getD ""), false, none,
              some "Pipeline start failed. Stopping workflow.", 1⟩)
    ∧ (∀ env : WorkflowEnv, (workflowMain env).downloadInvoked = true →
        (workflowMain env).uploadInvoked = true
        ∧ (workflowMain env).pipelineInvoked = true
        ∧ (workflowMain env).message = none)
    ∧ (∀ (s : WorkItem) (e : ItemEnv), e.uploadRc ≠ 0 →
        processSample s e
          = ⟨true, false,
              ⟨s.sample_id, "failed", some ("Upload failed: " ++ e.uploadStderr)⟩⟩) := by
  refine ⟨?_, ?_, ?_, ?_⟩
  · intro env h
    have hu : runUpload env = none := by simp [runUpload, h]
    simp [workflowMain, hu, pyFalsy]
  · intro env hu hp
    have hrp : runPipeline env = none := by simp [runPipeline, hp]
    simp only [workflowMain]
    rw [hu, hrp]
    simp [pyFalsy]
  · intro env h
    simp only [workflowMain] at h ⊢
    by_cases h1 : pyFalsy (runUpload env) = true
    · simp [h1] at h
    · by_cases h2 : pyFalsy (runPipeline env) = true
      · simp [h1, h2] at h
      · simp [h1, h2]
  · intro s e h
    simp [processSample, h]

/-- Witness for C7: a concrete run whose upload succeeds (producing folder
name `"runX"`) and whose pipeline start fails never invokes the download
step and exits 1 with the pipeline-start diagnostic. -/
theorem stage_pipeline_fail_fast_witness :
    workflowMain wfEnvSubmitFails
      = ⟨true, true, some "runX", false, none,
          some "Pipeline start failed. Stopping workflow.", 1⟩ :=
  (stage_pipeline_fail_fast.2.1 wfEnvSubmitFails (by decide) (by decide))

/-! ## Monitor-loop theorems -/

/-- **C8 counterexample**: the original claim fails twice on concrete
inputs.  First, an iteration whose query fails (with the notification
delivered) notifies the error and immediately polls again — the `continue`
skips `time.sleep`, so no sleep separates the two consecutive polls.
Second, when the error notification's SMTP delivery raises, the exception
escapes the handler-less loop body and the loop terminates with the rest
of the script never polled — so the loop does not continue on every
iteration either. -/
theorem monitor_error_iteration_skips_sleep :
    storageLoop 90 3600
        [⟨none, notifyEnvMailOnly⟩, ⟨some (50, 100), notifyEnvMailOnly⟩]
      = ⟨[.poll, .notifyErr ⟨[.emailSent], false⟩, .poll, .sleep 3600], false⟩
    ∧ MonEvent.sleep 3600 ∉ (storageStep 90 3600 ⟨none, notifyEnvMailOnly⟩).events
    ∧ (storageLoop 90 3600
          [⟨none, notifyEnvMailRaises⟩, ⟨some (50, 100), notifyEnvMailOnly⟩]).crashed
        = true
    ∧ storageLoop 90 3600
          [⟨none, notifyEnvMailRaises⟩, ⟨some (50, 100), notifyEnvMailOnly⟩]
        = ⟨[.poll, .notifyErr ⟨[], true⟩], true⟩ := by
  have hlt : ¬ (90 : ℚ) ≤ 50 / 100 * 100 := by norm_num
  have hstep : storageStep 90 3600 ⟨some (50, 100), notifyEnvMailOnly⟩
      = ⟨[.poll, .sleep 3600], false⟩ := by
    simp only [storageStep]
    rw [if_neg (by norm_num), if_neg hlt]
  have herr : storageStep 90 3600 ⟨none, notifyEnvMailOnly⟩
      = ⟨[.poll, .notifyErr ⟨[.emailSent], false⟩], false⟩ := by
    simp [storageStep, notifyChannels, notifyEnvMailOnly, sendSlack]
  have hraise : storageStep 90 3600 ⟨none, notifyEnvMailRaises⟩
      = ⟨[.poll, .notifyErr ⟨[], true⟩], true⟩ := by
    simp [storageStep, notifyChannels, notifyEnvMailRaises]
  refine ⟨?_, ?_, ?_, ?_⟩
  · simp only [storageLoop]
    rw [herr, hstep]
    rfl
  · rw [herr]
    decide
  · simp only [storageLoop]
    rw [hraise]
    rfl
  · simp only [storageLoop]
    rw [hraise]
    rfl

/-- A storage iteration whose body completes neither crashes nor skips its
single poll. -/
theorem storageStep_ok (thr : ℚ) (interval : Nat) (it : StorageIterEnv)
    (h : storageIterOk thr it = true) :
    (storageStep thr interval it).crashed = false
    ∧ (storageStep thr interval it).events.countP isPoll = 1 := by
  rcases hq : it.query with _ | ⟨u, t⟩ <;>
    simp only [storageIterOk, hq, Bool.not_eq_true', Bool.and_eq_true,
      Bool.or_eq_true, decide_eq_false_iff_not] at h
  · simp [storageStep, hq, notifyChannels, h, isPoll]
  · rcases h with ⟨ht, h2⟩
    by_cases hthr : thr ≤ u / t * 100
    · have hs : it.notifyEnv.smtpRaises = false := by
        rcases h2 with h2 | h2
        · exact absurd hthr h2
        · exact h2
      simp [storageStep, hq, ht, hthr, notifyChannels, hs, isPoll]
    · simp [storageStep, hq, ht, hthr, isPoll]

/-- A cost iteration whose body completes neither crashes nor skips its
single poll. -/
theorem costStep_ok (budget : ℚ) (interval : Nat) (it : CostIterEnv)
    (h : costIterOk budget it = true) :
    (costStep budget interval it).crashed = false
    ∧ (costStep budget interval it).events.countP isPoll = 1 := by
  rcases hq : it.query with _ | c <;>
    simp only [costIterOk, hq, Bool.not_eq_true', Bool.or_eq_true,
      decide_eq_false_iff_not] at h
  · simp [costStep, hq, notifyChannels, h, isPoll]
  · by_cases hb : budget ≤ c
    · have hs : it.notifyEnv.smtpRaises = false := by
        rcases h with h | h
        · exact absurd hb h
        · exact h
      simp [costStep, hq, hb, notifyChannels, hs, isPoll]
    · simp [costStep, hq, hb, isPoll]

/-- A storage script all of whose iteration bodies complete is consumed
whole: the loop never stops (no `return`/`break`) and polls once per
iteration. -/
theorem storageLoop_ok (thr : ℚ) (interval : Nat) (script : List StorageIterEnv)
    (h : ∀ it ∈ script, storageIterOk thr it = true) :
    (storageLoop thr interval script).crashed = false
    ∧ (storageLoop thr interval script).events.countP isPoll = script.length := by
  induction script with
  | nil => exact ⟨rfl, rfl⟩
  | cons it rest ih =>
    have hit := storageStep_ok thr interval it (h it (List.mem_cons_self it rest))
    have ihr := ih fun x hx => h x (List.mem_cons_of_mem it hx)
    simp only [storageLoop, hit.1, Bool.false_eq_true, if_false]
    refine ⟨ihr.1, ?_⟩
    show ((storageStep thr interval it).events
        ++ (storageLoop thr interval rest).events).countP isPoll = rest.length + 1
    rw [List.countP_append, hit.2, ihr.2]
    omega

/-- A cost script all of whose iteration bodies complete is consumed
whole. -/
theorem costLoop_ok (budget : ℚ) (interval : Nat) (script : List CostIterEnv)
    (h : ∀ it ∈ script, costIterOk budget it = true) :
    (costLoop budget interval script).crashed = false
    ∧ (costLoop budget interval script).events.countP isPoll = script.length := by
  induction script with
  | nil => exact ⟨rfl, rfl⟩
  | cons it rest ih =>
    have hit := costStep_ok budget interval it (h it (List.mem_cons_self it rest))
    have ihr := ih fun x hx => h x (List.mem_cons_of_mem it hx)
    simp only [costLoop, hit.1, Bool.false_eq_true, if_false]
    refine ⟨ihr.1, ?_⟩
    show ((costStep budget interval it).events
        ++ (costLoop budget interval rest).events).countP isPoll = rest.length + 1
    rw [List.countP_append, hit.2, ihr.2]
    omega

/-- **C8 (amended)**: the storage and cost monitor loops have no
terminating branch of their own (no `return`/`break`): any finite script
all of whose iteration bodies complete is polled in full, one poll per
iteration, with the loop still running afterwards.  An iteration whose
query succeeds (with, for storage, a nonzero total) sleeps
`checkIntervalSeconds` before the next poll whether or not the threshold
triggered a warning, but an iteration whose query fails notifies the error
and immediately polls again *without* sleeping (the `continue` skips the
sleep).  The loops do terminate exceptionally when an iteration's body
raises: a notification whose SMTP delivery fails escapes the handler-less
loop body (ending the loop with the rest of the script unread), and a
storage response reporting `total = 0` raises `ZeroDivisionError`. -/
theorem monitor_loops_continue (thr budget : ℚ) (interval : Nat) :
    (∀ script : List StorageIterEnv, (∀ it ∈ script, storageIterOk thr it = true) →
        (storageLoop thr interval script).crashed = false
        ∧ (storageLoop thr interval script).events.countP isPoll = script.length)
    ∧ (∀ script : List CostIterEnv, (∀ it ∈ script, costIterOk budget it = true) →
        (costLoop budget interval script).crashed = false
        ∧ (costLoop budget interval script).events.countP isPoll = script.length)
    ∧ (∀ it : StorageIterEnv, it.query = none → it.notifyEnv.smtpRaises = false →
        storageStep thr interval it
          = ⟨[.poll, .notifyErr ⟨.emailSent :: sendSlack it.notifyEnv, false⟩], false⟩)
    ∧ (∀ (it : StorageIterEnv) (u t : ℚ), it.query = some (u, t) → t ≠ 0 →
        ¬ thr ≤ u / t * 100 →
        storageStep thr interval it = ⟨[.poll, .sleep interval], false⟩)
    ∧ (∀ (it : StorageIterEnv) (u t : ℚ), it.query = some (u, t) → t ≠ 0 →
        thr ≤ u / t * 100 → it.notifyEnv.smtpRaises = false →
        storageStep thr interval it
          = ⟨[.poll, .notifyWarn ⟨.emailSent :: sendSlack it.notifyEnv, false⟩,
              .sleep interval], false⟩)
    ∧ (∀ (it : StorageIterEnv) (rest : List StorageIterEnv), it.query = none →
        it.notifyEnv.smtpRaises = true →
        (storageStep thr interval it).crashed = true
        ∧ storageLoop thr interval (it :: rest) = storageStep thr interval it)
    ∧ (∀ (it : StorageIterEnv) (u t : ℚ), it.query = some (u, t) → t ≠ 0 →
        thr ≤ u / t * 100 → it.notifyEnv.smtpRaises = true →
        (storageStep thr interval it).crashed = true)
    ∧ (∀ (it : StorageIterEnv) (u : ℚ), it.query = some (u, 0) →
        storageStep thr interval it = ⟨[.poll], true⟩)
    ∧ (∀ it : CostIterEnv, it.query = none → it.notifyEnv.smtpRaises = false →
        costStep budget interval it
          = ⟨[.poll, .notifyErr ⟨.emailSent :: sendSlack it.notifyEnv, false⟩], false⟩)
    ∧ (∀ (it : CostIterEnv) (c : ℚ), it.query = some c → ¬ budget ≤ c →
        costStep budget interval it = ⟨[.poll, .sleep interval], false⟩)
    ∧ (∀ (it : CostIterEnv) (c : ℚ), it.query = some c → budget ≤ c →
        it.notifyEnv.smtpRaises = false →
        costStep budget interval it
          = ⟨[.poll, .notifyWarn ⟨.emailSent :: sendSlack it.notifyEnv, false⟩,
              .sleep interval], false⟩)
    ∧ (∀ (it : CostIterEnv) (rest : List CostIterEnv), it.query = none →
        it.notifyEnv.smtpRaises = true →
        (costStep budget interval it).crashed = true
        ∧ costLoop budget interval (it :: rest) = costStep budget interval it) := by
  refine ⟨storageLoop_ok thr interval, costLoop_ok budget interval,
    ?_, ?_, ?_, ?_, ?_, ?_, ?_, ?_, ?_, ?_⟩
  · intro it hq hs
    simp [storageStep, hq, notifyChannels, hs]
  · intro it u t hq ht hthr
    simp [storageStep, hq, ht, hthr]
  · intro it u t hq ht hthr hs
    simp [storageStep, hq, ht, hthr, notifyChannels, hs]
  · intro it rest hq hs
    have hstep : (storageStep thr interval it).crashed = true := by
      simp [storageStep, hq, notifyChannels, hs]
    refine ⟨hstep, ?_⟩
    show (if (storageStep thr interval it).crashed = true then _ else _) = _
    rw [if_pos hstep]
  · intro it u t hq ht hthr hs
    simp [storageStep, hq, ht, hthr, notifyChannels, hs]
  · intro it u hq
    simp [storageStep, hq]
  · intro it hq hs
    simp [costStep, hq, notifyChannels, hs]
  · intro it c hq hb
    simp [costStep, hq, hb]
  · intro it c hq hb hs
    simp [costStep, hq, hb, notifyChannels, hs]
  · intro it rest hq hs
    have hstep : (costStep budget interval it).crashed = true := by
      simp [costStep, hq, notifyChannels, hs]
    refine ⟨hstep, ?_⟩
    show (if (costStep budget interval it).crashed = true then _ else _) = _
    rw [if_pos hstep]

/-- Witness for amended C8: a usage poll at 95% against a 90% threshold,
with the notification delivered, notifies a warning and then sleeps the
check interval. -/
theorem monitor_loops_continue_witness :
    storageStep 90 3600 ⟨some (95, 100), notifyEnvMailOnly⟩
      = ⟨[.poll, .notifyWarn ⟨[.emailSent], false⟩, .sleep 3600], false⟩ := by
  have h := (monitor_loops_continue 90 0 3600).2.2.2.2.1
    ⟨some (95, 100), notifyEnvMailOnly⟩ 95 100 rfl (by norm_num) (by norm_num) rfl
  simpa [sendSlack, notifyEnvMailOnly] using h

/-! ## Name-resolution theorems -/

/-- The shared scan returns `none` when no entry's lowercased name matches. -/
theorem findIdByNameCI_not_found (entries : List (String × String)) (name : String)
    (h : ∀ e ∈ entries, pyLower e.1 ≠ pyLower name) :
    findIdByNameCI entries name = none := by
  induction entries with
  | nil => rfl
  | cons e rest ih =>
    unfold findIdByNameCI
    rw [if_neg (h e (List.mem_cons_self e rest))]
    exact ih fun x hx => h x (List.mem_cons_of_mem e hx)

/-- The shared scan returns the id of the first case-insensitive match. -/
theorem findIdByNameCI_first_match (pre post : List (String × String))
    (n i name : String)
    (hpre : ∀ e ∈ pre, pyLower e.1 ≠ pyLower name)
    (hn : pyLower n = pyLower name) :
    findIdByNameCI (pre ++ (n, i) :: post) name = some i := by
  induction pre with
  | nil => simp [findIdByNameCI, hn]
  | cons e rest ih =>
    show findIdByNameCI (e :: (rest ++ (n, i) :: post)) name = some i
    unfold findIdByNameCI
    rw [if_neg (hpre e (List.mem_cons_self e rest))]
    exact ih fun x hx => hpre x (List.mem_cons_of_mem e hx)

/-- **C10**: project-name and pipeline-name resolution compare names
case-insensitively — the id of the first listed entry whose lowercased name
equals the lowercased requested name is returned, and resolution reports
not-found (`None`) when no entry matches. -/
theorem name_resolution_case_insensitive :
    (∀ (entries : List (String × String)) (name : String),
        (∀ e ∈ entries, pyLower e.1 ≠ pyLower name) →
        getProjectId entries name = none ∧ getPipelineId entries name = none)
    ∧ (∀ (pre post : List (String × String)) (n i name : String),
        (∀ e ∈ pre, pyLower e.1 ≠ pyLower name) → pyLower n = pyLower name →
        getProjectId (pre ++ (n, i) :: post) name = some i
        ∧ getPipelineId (pre ++ (n, i) :: post) name = some i) := by
  refine ⟨fun entries name h => ⟨?_, ?_⟩, fun pre post n i name hpre hn => ⟨?_, ?_⟩⟩
  · exact findIdByNameCI_not_found entries name h
  · exact findIdByNameCI_not_found entries name h
  · exact findIdByNameCI_first_match pre post n i name hpre hn
  · exact findIdByNameCI_first_match pre post n i name hpre hn

/-- Witness for C10: `"beta"` resolves to the id of the first entry whose
name is `"BETA"` up to case, skipping a non-matching first entry. -/
theorem name_resolution_case_insensitive_witness :
    getProjectId [("Alpha", "p1"), ("BETA", "p2"), ("beta", "p3")] "beta"
      = some "p2" :=
  (name_resolution_case_insensitive.2 [("Alpha", "p1")] [("beta", "p3")]
      "BETA" "p2" "beta" (by decide) (by decide)).1

end ICATools
